import Mathlib

/-!
Shallow embedding of the wallet-service core (NestJS/Prisma/Paystack repo):
api-key service, access guards, Paystack signature verification, deposit
initialization, webhook settlement and peer-to-peer transfer.  Stateful
Prisma code is modelled by explicit record stores passed in and returned;
thrown Nest exceptions become an `Except` error channel, so an error result
carries no modified store (mirroring transaction rollback / pre-write
throws).  Randomness (crypto.randomBytes), wall-clock reads (Date.now) and
external gateway responses are explicit parameters.
-/

/-- Nest exception taxonomy used by the code: NotFoundException,
BadRequestException, ForbiddenException, UnauthorizedException, plus an
internal-error constructor for paths where the JS code would crash
(TypeError / missing relation). -/
inductive WErr where
  | notFound (msg : String)
  | badRequest (msg : String)
  | forbidden (msg : String)
  | unauthorized (msg : String)
  | internalError (msg : String)
  deriving DecidableEq

deriving instance DecidableEq for Except

/-- JSON values as manipulated by the service (parsed webhook bodies). -/
inductive JVal where
  | null
  | bool (b : Bool)
  | num (n : Int)
  | str (s : String)
  | arr (xs : List JVal)
  | obj (fields : List (String × JVal))

/-- JSON.stringify semantics (compact form, no spaces), restricted to the
integer numbers and escape-free strings the model uses. -/
def stringifyStr (s : String) : String :=
  "\"" ++ s ++ "\""

mutual
/-- Serialization of one JSON value, as JSON.stringify produces it. -/
def stringify : JVal → String
  | .null => "null"
  | .bool true => "true"
  | .bool false => "false"
  | .num n => toString n
  | .str s => stringifyStr s
  | .arr xs => "[" ++ stringifyList xs ++ "]"
  | .obj fs => "\x7b" ++ stringifyFields fs ++ "\x7d"

/-- Comma-joined serialization of array elements. -/
def stringifyList : List JVal → String
  | [] => ""
  | [x] => stringify x
  | x :: y :: rest => stringify x ++ "," ++ stringifyList (y :: rest)

/-- Comma-joined serialization of object members. -/
def stringifyFields : List (String × JVal) → String
  | [] => ""
  | [(k, v)] => stringifyStr k ++ ":" ++ stringify v
  | (k, v) :: p :: rest =>
      stringifyStr k ++ ":" ++ stringify v ++ "," ++ stringifyFields (p :: rest)
end

/-- Left brace character, kept out of literals. -/
def lbrace : Char := Char.ofNat 123

/-- Right brace character, kept out of literals. -/
def rbrace : Char := Char.ofNat 125

/-- Skip JSON insignificant whitespace. -/
def skipWs : List Char → List Char
  | c :: cs =>
      if c = ' ' ∨ c = '\n' ∨ c = '\t' ∨ c = '\r' then skipWs cs else c :: cs
  | [] => []

/-- Parse the remainder of a JSON string literal (no escapes), after the
opening quote. -/
def parseStrRest : List Char → Option (String × List Char)
  | c :: cs =>
      if c = '"' then some ("", cs)
      else (parseStrRest cs).map (fun p => (String.mk (c :: p.1.data), p.2))
  | [] => none

/-- Parse a run of decimal digits. -/
def parseDigits : List Char → Option (Nat × List Char)
  | c :: cs =>
      if c.isDigit then
        match parseDigits cs with
        | some (n, rest) =>
            some (c.toNat - 48 + n * 10, rest)
        | none => some (c.toNat - 48, cs)
      else none
  | [] => none

/-- Digits accumulated most-significant-first. -/
def parseNatAcc : Nat → List Char → Nat × List Char
  | acc, c :: cs =>
      if c.isDigit then parseNatAcc (acc * 10 + (c.toNat - 48)) cs
      else (acc, c :: cs)
  | acc, [] => (acc, [])

mutual
/-- Fueled recursive-descent parser modelling JSON.parse on the fragment the
webhook bodies use (objects, arrays, escape-free strings, integers,
booleans, null). -/
def parseValF : Nat → List Char → Option (JVal × List Char)
  | 0, _ => none
  | fuel + 1, cs =>
      match skipWs cs with
      | [] => none
      | c :: rest =>
          if c = '"' then
            (parseStrRest rest).map (fun p => (JVal.str p.1, p.2))
          else if c = 'n' then
            match rest with
            | 'u' :: 'l' :: 'l' :: r => some (JVal.null, r)
            | _ => none
          else if c = 't' then
            match rest with
            | 'r' :: 'u' :: 'e' :: r => some (JVal.bool true, r)
            | _ => none
          else if c = 'f' then
            match rest with
            | 'a' :: 'l' :: 's' :: 'e' :: r => some (JVal.bool false, r)
            | _ => none
          else if c = '-' then
            match rest with
            | d :: r =>
                if d.isDigit then
                  let p := parseNatAcc (d.toNat - 48) r
                  some (JVal.num (-(p.1 : Int)), p.2)
                else none
            | [] => none
          else if c.isDigit then
            let p := parseNatAcc (c.toNat - 48) rest
            some (JVal.num (p.1 : Int), p.2)
          else if c = '[' then
            match skipWs rest with
            | d :: r2 =>
                if d = ']' then some (JVal.arr [], r2)
                else parseElemsF fuel [] (d :: r2)
            | [] => none
          else if c = lbrace then
            match skipWs rest with
            | d :: r2 =>
                if d = rbrace then some (JVal.obj [], r2)
                else parseFieldsF fuel [] (d :: r2)
            | [] => none
          else none

/-- Parse the elements of a non-empty array, accumulating in order. -/
def parseElemsF : Nat → List JVal → List Char → Option (JVal × List Char)
  | 0, _, _ => none
  | fuel + 1, acc, cs =>
      match parseValF fuel cs with
      | none => none
      | some (v, rest) =>
          match skipWs rest with
          | c :: r2 =>
              if c = ',' then parseElemsF fuel (acc ++ [v]) r2
              else if c = ']' then some (JVal.arr (acc ++ [v]), r2)
              else none
          | [] => none

/-- Parse the members of a non-empty object, accumulating in order. -/
def parseFieldsF : Nat → List (String × JVal) → List Char →
    Option (JVal × List Char)
  | 0, _, _ => none
  | fuel + 1, acc, cs =>
      match skipWs cs with
      | c :: rest =>
          if c = '"' then
            match parseStrRest rest with
            | none => none
            | some (k, r2) =>
                match skipWs r2 with
                | d :: r3 =>
                    if d = ':' then
                      match parseValF fuel r3 with
                      | none => none
                      | some (v, r4) =>
                          match skipWs r4 with
                          | e :: r5 =>
                              if e = ',' then
                                parseFieldsF fuel (acc ++ [(k, v)]) r5
                              else if e = rbrace then
                                some (JVal.obj (acc ++ [(k, v)]), r5)
                              else none
                          | [] => none
                    else none
                | [] => none
          else none
      | [] => none
end

/-- Parse a whole JSON document: models JSON.parse on the supported
fragment. -/
def parseJson (s : String) : Option JVal :=
  match parseValF (s.length + 1) s.data with
  | some (v, rest) => if skipWs rest = [] then some v else none
  | none => none

/-- Object member lookup (`e.k` in JS; none when absent or not an object). -/
def jget (e : JVal) (k : String) : Option JVal :=
  match e with
  | .obj fs => fs.lookup k
  | _ => none

/-- Read a member as a string. -/
def jstr (e : Option JVal) : Option String :=
  match e with
  | some (.str s) => some s
  | _ => none

/-- Nested member lookup (`e.k1.k2`). -/
def jget2 (e : JVal) (k1 k2 : String) : Option JVal :=
  (jget e k1).bind (fun j => jget j k2)

/-- Gregorian leap-year rule, as implemented by the JS Date object the
api-key service relies on. -/
def isLeapYear (y : Nat) : Bool :=
  if y % 400 = 0 then true
  else if y % 100 = 0 then false
  else decide (y % 4 = 0)

/-- Length of a (0-based) month in a year with the given leap flag. -/
def daysInMonth (leap : Bool) (m : Nat) : Nat :=
  if m = 1 then (if leap then 29 else 28)
  else if m = 3 ∨ m = 5 ∨ m = 8 ∨ m = 10 then 30
  else 31

/-- Cumulative days before (0-based) month m, in a year with the given leap
flag. -/
def monthDaysBefore (leap : Bool) (m : Nat) : Nat :=
  let l : Nat := if leap then 1 else 0
  match m with
  | 0 => 0
  | 1 => 31
  | 2 => 59 + l
  | 3 => 90 + l
  | 4 => 120 + l
  | 5 => 151 + l
  | 6 => 181 + l
  | 7 => 212 + l
  | 8 => 243 + l
  | 9 => 273 + l
  | 10 => 304 + l
  | _ => 334 + l

/-- Days from year 0 Jan 1 to year y Jan 1 (proleptic Gregorian; year 0 is
a leap year, matching `isLeapYear`). -/
def daysBeforeYear (y : Nat) : Nat :=
  365 * y + (y + 3) / 4 + (y + 399) / 400 - (y + 99) / 100

/-- A JS Date, given by its (UTC) civil components: `year`, 0-based `month`
(as getMonth returns), 1-based `day`, and time of day with milliseconds.
The server clock and gateway timestamps never involve time zones in this
model. -/
structure JsDate where
  year : Nat
  month : Nat
  day : Nat
  hour : Nat
  minute : Nat
  second : Nat
  ms : Nat
  deriving DecidableEq

/-- Well-formedness of civil components. -/
def ValidDate (t : JsDate) : Prop :=
  t.month < 12 ∧ 1 ≤ t.day ∧ t.day ≤ daysInMonth (isLeapYear t.year) t.month ∧
  t.hour < 24 ∧ t.minute < 60 ∧ t.second < 60 ∧ t.ms < 1000

instance (t : JsDate) : Decidable (ValidDate t) := by
  unfold ValidDate; infer_instance

/-- Days from year 0 Jan 1 to the given date. -/
def epochDays (t : JsDate) : Nat :=
  daysBeforeYear t.year + monthDaysBefore (isLeapYear t.year) t.month + (t.day - 1)

/-- Milliseconds from year 0 Jan 1 midnight to the given instant: the
measure corresponding to JS getTime (up to the fixed 1970 offset). -/
def epochMs (t : JsDate) : Nat :=
  epochDays t * 86400000 + t.hour * 3600000 + t.minute * 60000 +
    t.second * 1000 + t.ms

/-- The civil date one day later (normalized), as new Date(getTime + 86400000)
yields for a valid date. -/
def addOneDay (t : JsDate) : JsDate :=
  if t.day < daysInMonth (isLeapYear t.year) t.month then { t with day := t.day + 1 }
  else if t.month < 11 then { t with month := t.month + 1, day := 1 }
  else { t with year := t.year + 1, month := 0, day := 1 }

/-- The civil date one hour later (normalized), as new Date(getTime + 3600000)
yields for a valid date. -/
def addOneHour (t : JsDate) : JsDate :=
  if t.hour + 1 < 24 then { t with hour := t.hour + 1 }
  else addOneDay { t with hour := 0 }

/-- The JS constructor new Date(y, m, d, h, mi, s): month overflow moves into
the next year, and a day beyond the target month's length rolls into the
following month.  Faithful for the arguments the api-key service produces
(m ≤ 12, d ≤ 31, so one rollover step suffices, exactly as V8 normalizes).
Milliseconds are 0, as in the constructor. -/
def mkJsDate (y m d h mi s : Nat) : JsDate :=
  let y1 := y + m / 12
  let m1 := m % 12
  if d ≤ daysInMonth (isLeapYear y1) m1 then
    ⟨y1, m1, d, h, mi, s, 0⟩
  else
    let d1 := d - daysInMonth (isLeapYear y1) m1
    let y2 := y1 + (m1 + 1) / 12
    let m2 := (m1 + 1) % 12
    ⟨y2, m2, d1, h, mi, s, 0⟩

/-- ApiKeyService.calculateExpireTime: '1H' and '1D' add a fixed duration to
getTime; '1M' and '1Y' rebuild the date from civil components with month+1
resp. year+1 (calendar arithmetic); anything else throws
BadRequestException('Invalid expiry unit'). -/
def calculateExpireTime (now : JsDate) (expiry : String) : Except WErr JsDate :=
  if expiry = "1H" then .ok (addOneHour now)
  else if expiry = "1D" then .ok (addOneDay now)
  else if expiry = "1M" then
    .ok (mkJsDate now.year (now.month + 1) now.day now.hour now.minute now.second)
  else if expiry = "1Y" then
    .ok (mkJsDate (now.year + 1) now.month now.day now.hour now.minute now.second)
  else .error (.badRequest "Invalid expiry unit")

/-- An ApiKey row of the Prisma schema. -/
structure ApiKeyRec where
  id : String
  userId : String
  name : String
  key : String
  permissions : List String
  expiresAt : JsDate
  revokedAt : Option JsDate
  rolledOverFrom : Option String
  rolledOverAt : Option JsDate
  deriving DecidableEq

/-- CreateApiKeyDto: name, permission subset, expiry unit. -/
structure CreateApiKeyDto where
  name : String
  permissions : List String
  expiry : String

/-- RolloverApiKeyDto: the expired key id and the new expiry unit. -/
structure RolloverApiKeyDto where
  expired_key_id : String
  expiry : String

/-- Response shape shared by createApiKey and rolloverApiKey. -/
structure ApiKeyResult where
  api_key : String
  expires_at : JsDate
  name : String
  permissions : List String
  deriving DecidableEq

/-- The active-key count query of ApiKeyService.createApiKey: keys of the
user with revokedAt null and expiresAt strictly after now. -/
def countActiveKeys (db : List ApiKeyRec) (now : JsDate) (userId : String) : Nat :=
  (db.filter (fun k =>
    k.userId == userId && k.revokedAt.isNone &&
      decide (epochMs now < epochMs k.expiresAt))).length

/-- ApiKeyService.createApiKey.  The generated secret (sk_live_ plus 32
random bytes hex) and the new row id are explicit parameters standing for
crypto.randomBytes and the database id.  A BadRequestException from
calculateExpireTime is rethrown unchanged by the catch block. -/
def createApiKey (db : List ApiKeyRec) (now : JsDate) (userId : String)
    (dto : CreateApiKeyDto) (newId newSecret : String) :
    Except WErr (List ApiKeyRec × ApiKeyResult) := do
  if 5 ≤ countActiveKeys db now userId then
    throw (.badRequest "Maximum of 5 active API keys allowed")
  let expiresAt ← calculateExpireTime now dto.expiry
  let newKey : ApiKeyRec :=
    ⟨newId, userId, dto.name, newSecret, dto.permissions, expiresAt,
      none, none, none⟩
  return (newKey :: db, ⟨newSecret, expiresAt, dto.name, dto.permissions⟩)

/-- ApiKeyService.revokeApiKey: NotFound for an unknown id, Forbidden on an
ownership mismatch, otherwise stamps revokedAt := now. -/
def revokeApiKey (db : List ApiKeyRec) (now : JsDate) (userId keyId : String) :
    Except WErr (List ApiKeyRec × String) :=
  match db.find? (fun k => k.id == keyId) with
  | none => .error (.notFound "API key not found")
  | some k =>
      if k.userId ≠ userId then
        .error (.forbidden "You do not have permission to revoke this key")
      else
        .ok (db.map (fun x =>
          if x.id == keyId then { x with revokedAt := some now } else x),
          "API key revoked successfully")

/-- ApiKeyService.rolloverApiKey.  Checks, in source order: the old key
exists (NotFound), is owned by the caller (Forbidden), is not still active
(now ≤ expiresAt and unrevoked → BadRequest 'still active'), is not revoked
(BadRequest 'revoked'); then creates a new key inheriting the old key's
permissions, linked back via rolledOverFrom, and stamps the old key's
rolledOverAt. -/
def rolloverApiKey (db : List ApiKeyRec) (now : JsDate) (userId : String)
    (dto : RolloverApiKeyDto) (newId newSecret : String) :
    Except WErr (List ApiKeyRec × ApiKeyResult) := do
  match db.find? (fun k => k.id == dto.expired_key_id) with
  | none => throw (.notFound "API key not found")
  | some oldKey =>
      if oldKey.userId ≠ userId then
        throw (.forbidden "You do not have permission to rollover this key")
      else if epochMs now ≤ epochMs oldKey.expiresAt ∧ oldKey.revokedAt = none then
        throw (.badRequest
          "API key is still active. Only expired keys can be rolled over")
      else if oldKey.revokedAt.isSome then
        throw (.badRequest
          "API key has been revoked. Only expired keys can be rolled over")
      else
        let newExpiresAt ← calculateExpireTime now dto.expiry
        let newKey : ApiKeyRec :=
          ⟨newId, userId, oldKey.name ++ " (rolled over)", newSecret,
            oldKey.permissions, newExpiresAt, none, some oldKey.id, none⟩
        let updated := db.map (fun x =>
          if x.id == oldKey.id then { x with rolledOverAt := some now } else x)
        return (newKey :: updated,
          ⟨newSecret, newExpiresAt, newKey.name, oldKey.permissions⟩)

/-- The authentication-relevant request data: the Authorization header and
the x-api-key header. -/
structure HttpRequest where
  authorization : Option String
  xApiKey : Option String

/-- What the guards attach to the request: the resolved user id and the
apiKeyPermissions array. -/
structure AuthCtx where
  user : Option String
  apiKeyPermissions : Option (List String)
  deriving DecidableEq

/-- JwtAuthGuard.canActivate.  `verifyJwt` stands for jwtService.verify,
returning the payload subject for a valid token.  A request with no
Authorization header passes through when an x-api-key header is present
outside the keys endpoints; a valid JWT attaches the user and the full permission
set. -/
def jwtAuthGuard (verifyJwt : String → Option String) (req : HttpRequest)
    (isKeysEndpoint : Bool) : Except WErr AuthCtx :=
  match req.authorization with
  | none =>
      if req.xApiKey.isSome ∧ ¬isKeysEndpoint then .ok ⟨none, none⟩
      else if isKeysEndpoint then
        .error (.unauthorized "Missing authentication: Bearer JWT required")
      else
        .error (.unauthorized
          "Missing authentication: Bearer JWT or x-api-key header required")
  | some h =>
      let token := (h.replace "Bearer " "").trim
      if token = "" then .error (.unauthorized "No JWT token provided")
      else
        match verifyJwt token with
        | some uid => .ok ⟨some uid, some ["deposit", "transfer", "read"]⟩
        | none => .error (.unauthorized "Invalid or expired JWT token")

/-- ApiKeyGuard.canActivate: passes a request that already carries a user;
otherwise resolves the x-api-key header against the key store,
distinguishing unknown, revoked and expired keys, and attaches the key's
owner and recorded permissions. -/
def apiKeyGuard (db : List ApiKeyRec) (now : JsDate) (req : HttpRequest)
    (ctx : AuthCtx) : Except WErr AuthCtx :=
  if ctx.user.isSome then .ok ctx
  else
    match req.xApiKey with
    | none =>
        .error (.unauthorized
          "Missing authentication: Bearer JWT or x-api-key header required")
    | some apiKey =>
        match db.find? (fun k => k.key == apiKey) with
        | none => .error (.forbidden "Invalid API key")
        | some k =>
            if k.revokedAt.isSome then
              .error (.forbidden "API key has been revoked")
            else if epochMs k.expiresAt < epochMs now then
              .error (.forbidden "API key has expired")
            else .ok ⟨some k.userId, some k.permissions⟩

/-- The guarded wallet endpoints of WalletController. -/
inductive Endpoint where
  | balance
  | deposit
  | depositStatus
  | transferFunds
  | history
  deriving DecidableEq

/-- The permission each endpoint's handler passes to
validateApiKeyPermission. -/
def requiredPermission : Endpoint → String
  | .balance => "read"
  | .deposit => "deposit"
  | .depositStatus => "read"
  | .transferFunds => "transfer"
  | .history => "read"

/-- WalletController.validateApiKeyPermission. -/
def validateApiKeyPermission (permissions : List String)
    (permissionNeeded : String) : Bool :=
  permissions.contains permissionNeeded

/-- The access path in front of every guarded wallet operation: JwtAuthGuard,
then ApiKeyGuard, then the controller's permission check, which throws
UnauthorizedException when the resolved permissions lack the endpoint's
required permission.  Returns the authenticated context the handler runs
with. -/
def accessWalletEndpoint (verifyJwt : String → Option String)
    (db : List ApiKeyRec) (now : JsDate) (req : HttpRequest) (ep : Endpoint) :
    Except WErr AuthCtx := do
  let ctx ← jwtAuthGuard verifyJwt req false
  let ctx ← apiKeyGuard db now req ctx
  if validateApiKeyPermission (ctx.apiKeyPermissions.getD [])
      (requiredPermission ep) then
    return ctx
  else
    throw (.unauthorized
      "This api key does not have the necessary permissions to  perform this action")

/-- A Wallet row (with the user fields the service reads through the
relation: email for deposits, name for transfer descriptions). -/
structure WalletRec where
  id : String
  userId : String
  walletNumber : String
  balance : Int
  userEmail : String
  userName : String
  deriving DecidableEq

/-- A Transaction row. -/
structure TransactionRec where
  id : String
  walletId : String
  txType : String
  amount : Int
  reference : String
  paystackRef : Option String
  status : String
  description : Option String
  deriving DecidableEq

/-- A Transfer row. -/
structure TransferRec where
  senderId : String
  recipientId : String
  amount : Int
  reference : String
  status : String
  description : Option String
  deriving DecidableEq

/-- The ledger store: wallets, transactions and transfers. -/
structure Db where
  wallets : List WalletRec
  transactions : List TransactionRec
  transfers : List TransferRec
  deriving DecidableEq

/-- PaystackService.verifyWebhookSignature: computes the keyed digest of
JSON.stringify(body) — a reserialization of the already-parsed body, not
the raw request bytes — and compares it with the presented signature.
`hmac` stands for crypto.createHmac('sha512', key).update(msg).digest('hex'). -/
def verifyWebhookSignature (hmac : String → String → String) (secretKey : String)
    (body : JVal) (signature : String) : Bool :=
  hmac secretKey (stringify body) == signature

/-- What the initializeDeposit flow sends to POST /transaction/initialize. -/
structure PaystackInitRequest where
  email : String
  amount : Int
  reference : String
  deriving DecidableEq

/-- What PaystackService.initializeTransaction returns to the wallet
service. -/
structure PaystackInitResponse where
  reference : String
  authorization_url : String

/-- The response of WalletService.initializeDeposit. -/
structure InitDepositResult where
  reference : String
  authorization_url : String
  deriving DecidableEq

/-- The internal deposit reference: wallet_userId_timestamp_random, with the
Date.now() string and the 4-byte random hex suffix as parameters. -/
def depositReference (userId ts rand : String) : String :=
  "wallet_" ++ userId ++ "_" ++ ts ++ "_" ++ rand

/-- WalletService.initializeDeposit.  The gateway's reply `resp` and the
created row's id are parameters (network response, database id).  Returns
the updated store, the request sent to the gateway (its amount is the
ledger amount times 100, minor units) and the caller-facing result; the
persisted Transaction is pending, carries the unscaled amount and both
references. -/
def initializeDeposit (db : Db) (userId : String) (amount : Int)
    (ts rand : String) (resp : PaystackInitResponse) (newTxId : String) :
    Except WErr (Db × PaystackInitRequest × InitDepositResult) :=
  match db.wallets.find? (fun w => w.userId == userId) with
  | none => .error (.notFound "Wallet not found")
  | some wallet =>
      let reference := depositReference userId ts rand
      let request : PaystackInitRequest :=
        ⟨wallet.userEmail, amount * 100, reference⟩
      let newTx : TransactionRec :=
        ⟨newTxId, wallet.id, "deposit", amount, reference,
          some resp.reference, "pending", none⟩
      .ok ({ db with transactions := newTx :: db.transactions },
        request, ⟨reference, resp.authorization_url⟩)

/-- WalletService.handlePaystackWebhook.  Throws BadRequestException on a
signature mismatch; for a charge.success event looks the Transaction up by
the gateway reference, acknowledging with status true when it is missing or
already success, and otherwise, in one unit of work, marks it success and
credits its wallet with the transaction amount.  Any other event is
acknowledged untouched.  The returned Bool is the status field of the
acknowledgement body. -/
def handlePaystackWebhook (hmac : String → String → String) (secretKey : String)
    (db : Db) (event : JVal) (signature : String) : Except WErr (Db × Bool) :=
  if ¬verifyWebhookSignature hmac secretKey event signature then
    .error (.badRequest "Invalid webhook signature")
  else if jstr (jget event "event") == some "charge.success" then
    match jstr (jget2 event "data" "reference") with
    | none => .error (.internalError "TypeError: cannot read reference")
    | some reference =>
        match db.transactions.find? (fun t => t.paystackRef == some reference) with
        | none => .ok (db, true)
        | some transaction =>
            if transaction.status == "success" then .ok (db, true)
            else
              match db.wallets.find? (fun w => w.id == transaction.walletId) with
              | none => .error (.internalError "wallet relation missing")
              | some wallet =>
                  .ok ({ db with
                    transactions := db.transactions.map (fun t =>
                      if t.id == transaction.id then { t with status := "success" }
                      else t),
                    wallets := db.wallets.map (fun w =>
                      if w.id == wallet.id then
                        { w with balance := wallet.balance + transaction.amount }
                      else w) }, true)
  else .ok (db, true)

/-- TransferDto: recipient wallet number, amount, optional description. -/
structure TransferDto where
  wallet_number : String
  amount : Int
  description : Option String

/-- The Transfer row's reference: transfer_senderId_recipientId_ts_random. -/
def transferReference (senderId recipientId ts rand : String) : String :=
  "transfer_" ++ senderId ++ "_" ++ recipientId ++ "_" ++ ts ++ "_" ++ rand

/-- The recipient-side Transaction reference: transfer_senderId_ts_random. -/
def recipientReference (senderId ts rand : String) : String :=
  "transfer_" ++ senderId ++ "_" ++ ts ++ "_" ++ rand

/-- The sender-side Transaction reference: transfer_recipientId_ts_random. -/
def senderReference (recipientId ts rand : String) : String :=
  "transfer_" ++ recipientId ++ "_" ++ ts ++ "_" ++ rand

/-- WalletService.transferFunds.  Preconditions in source order: sender
wallet exists, recipient wallet (by wallet number) exists, not the same
user, sufficient balance.  On success, in one unit of work: debit sender,
credit recipient, insert the Transfer row and the two per-wallet
Transaction rows.  ts is the Date.now() string, r1 r2 r3 the three 4-byte
random hex suffixes in generation order, sTxId rTxId the new row ids. -/
def transferFunds (db : Db) (senderId : String) (dto : TransferDto)
    (ts r1 r2 r3 : String) (sTxId rTxId : String) :
    Except WErr (Db × String) :=
  match db.wallets.find? (fun w => w.userId == senderId) with
  | none => .error (.notFound "Sender wallet not found")
  | some senderWallet =>
      match db.wallets.find? (fun w => w.walletNumber == dto.wallet_number) with
      | none => .error (.notFound "Recipient wallet not found")
      | some recipientWallet =>
          if senderWallet.userId == recipientWallet.userId then
            .error (.badRequest "Cannot transfer to your own wallet")
          else if senderWallet.balance < dto.amount then
            .error (.badRequest "Insufficient balance")
          else
            let tRef := transferReference senderWallet.userId recipientWallet.userId ts r1
            let rRef := recipientReference senderWallet.userId ts r2
            let sRef := senderReference recipientWallet.userId ts r3
            let ws1 := db.wallets.map (fun w =>
              if w.id == senderWallet.id then
                { w with balance := senderWallet.balance - dto.amount }
              else w)
            let ws2 := ws1.map (fun w =>
              if w.id == recipientWallet.id then
                { w with balance := recipientWallet.balance + dto.amount }
              else w)
            let transferRow : TransferRec :=
              ⟨senderId, recipientWallet.userId, dto.amount, tRef, "success",
                dto.description⟩
            let senderTx : TransactionRec :=
              ⟨sTxId, senderWallet.id, "transfer", dto.amount, sRef, none,
                "success", some ("Transfer to " ++ recipientWallet.userName)⟩
            let recipientTx : TransactionRec :=
              ⟨rTxId, recipientWallet.id, "transfer", dto.amount, rRef, none,
                "success", some ("Received from " ++ senderWallet.userName)⟩
            .ok (⟨ws2, senderTx :: recipientTx :: db.transactions,
              transferRow :: db.transfers⟩, "Transfer completed")

/-- The transfer endpoint as the caller observes it: on a thrown exception
the surrounding Prisma state is untouched, so the caller keeps the original
store alongside the error. -/
def runTransfer (db : Db) (senderId : String) (dto : TransferDto)
    (ts r1 r2 r3 : String) (sTxId rTxId : String) : Db × Option WErr :=
  match transferFunds db senderId dto ts r1 r2 r3 sTxId rTxId with
  | .ok (db2, _) => (db2, none)
  | .error e => (db, some e)

/-- A 2025-06-15 10:20:30.500 server clock used in concrete instances. -/
def nowD : JsDate := ⟨2025, 5, 15, 10, 20, 30, 500⟩

/-- An API key that expired at the start of 2020 and was never revoked. -/
def expiredKeyD : ApiKeyRec :=
  ⟨"k1", "u1", "svc", "sk_live_old", ["read"], ⟨2020, 0, 1, 0, 0, 0, 0⟩,
    none, none, none⟩

/-- An active API key (expires at the start of 2030) with the given id. -/
def activeKeyD (i : String) : ApiKeyRec :=
  ⟨i, "u1", "svc", "sk_live_" ++ i, ["read"], ⟨2030, 0, 1, 0, 0, 0, 0⟩,
    none, none, none⟩

/-- Five simultaneously active keys held by user u1. -/
def fiveKeysDb : List ApiKeyRec :=
  [activeKeyD "k1", activeKeyD "k2", activeKeyD "k3", activeKeyD "k4",
    activeKeyD "k5"]

/-- A create request with a one-day expiry. -/
def createDtoD : CreateApiKeyDto := ⟨"svc", ["read"], "1D"⟩

/-- Ok-test for a service result. -/
def isOkE {α : Type} (e : Except WErr α) : Bool :=
  match e with
  | .ok _ => true
  | .error _ => false

/-- Forbidden-test for a service result. -/
def isForbiddenE {α : Type} (e : Except WErr α) : Bool :=
  match e with
  | .error (.forbidden _) => true
  | _ => false

/-- A request presenting only the read-scoped API key sk_live_k1. -/
def readOnlyReq : HttpRequest := ⟨none, some "sk_live_k1"⟩

/-- Wallet A of the §8 transfer scenario: balance 10000. -/
def walletA : WalletRec := ⟨"wA", "uA", "1111", 10000, "a@mail", "Alice"⟩

/-- Wallet B of the §8 transfer scenario: balance 0. -/
def walletB : WalletRec := ⟨"wB", "uB", "2222", 0, "b@mail", "Bob"⟩

/-- The two-wallet ledger the transfer scenario starts from. -/
def demoDb : Db := ⟨[walletA, walletB], [], []⟩

/-- A deposit transaction already settled to success, keyed by gateway
reference payref1. -/
def successTxD : TransactionRec :=
  ⟨"t1", "wA", "deposit", 5000, "ref1", some "payref1", "success", none⟩

/-- The ledger after that settlement. -/
def demoDbSettled : Db := ⟨[walletA, walletB], [successTxD], []⟩

/-- A charge.success webhook body for gateway reference payref1. -/
def chargeEventD : JVal :=
  .obj [("event", .str "charge.success"),
    ("data", .obj [("reference", .str "payref1")])]

/-- A webhook body whose event is not charge.success. -/
def failEventD : JVal :=
  .obj [("event", .str "charge.failed"),
    ("data", .obj [("reference", .str "payref1")])]

/-- A degenerate digest function for concrete instances: every message maps
to sig. -/
def constHmac : String → String → String := fun _ _ => "sig"

/-- An identity digest for the reserialization counterexample: injective,
so it distinguishes exactly the messages that differ as bytes. -/
def rawHmac : String → String → String := fun _ m => m

/-- The raw webhook bytes of the failing input: valid JSON carrying a space
after the colon, exactly as the gateway may have serialized it and signed
it. -/
def rawBodyD : String := "\x7b\"event\": \"charge.success\"\x7d"

/-- The value JSON.parse produces from rawBodyD. -/
def parsedBodyD : JVal := .obj [("event", .str "charge.success")]

theorem daysBeforeYear_succ (y : Nat) :
    daysBeforeYear (y + 1) = daysBeforeYear y + 365 + (isLeapYear y).toNat := by
  by_cases h400 : y % 400 = 0
  · have hleap : isLeapYear y = true := by simp [isLeapYear, h400]
    rw [hleap]
    unfold daysBeforeYear
    simp only [Bool.toNat_true]
    omega
  · by_cases h100 : y % 100 = 0
    · have hleap : isLeapYear y = false := by simp [isLeapYear, h400, h100]
      rw [hleap]
      unfold daysBeforeYear
      simp only [Bool.toNat_false]
      omega
    · by_cases h4 : y % 4 = 0
      · have hleap : isLeapYear y = true := by simp [isLeapYear, h400, h100, h4]
        rw [hleap]
        unfold daysBeforeYear
        simp only [Bool.toNat_true]
        omega
      · have hleap : isLeapYear y = false := by simp [isLeapYear, h400, h100, h4]
        rw [hleap]
        unfold daysBeforeYear
        simp only [Bool.toNat_false]
        omega

theorem monthDaysBefore_succ (leap : Bool) (m : Nat) (hm : m < 11) :
    monthDaysBefore leap (m + 1) =
      monthDaysBefore leap m + daysInMonth leap m := by
  interval_cases m <;> cases leap <;> rfl

theorem epochDays_addOneDay (t : JsDate) (h : ValidDate t) :
    epochDays (addOneDay t) = epochDays t + 1 := by
  obtain ⟨hm, hd1, hd2, _⟩ := h
  unfold addOneDay
  split_ifs with h1 h2
  · unfold epochDays
    dsimp only
    omega
  · unfold epochDays
    dsimp only
    rw [monthDaysBefore_succ (isLeapYear t.year) t.month h2]
    omega
  · have hm11 : t.month = 11 := by omega
    have hdim : daysInMonth (isLeapYear t.year) 11 = 31 := rfl
    unfold epochDays
    dsimp only
    rw [daysBeforeYear_succ]
    have h334 : monthDaysBefore (isLeapYear t.year) 11 =
        334 + (isLeapYear t.year).toNat := by
      cases hy : isLeapYear t.year <;> rfl
    rw [hm11] at hd2 h1 ⊢
    rw [hdim] at hd2 h1
    rw [h334]
    have h0 : monthDaysBefore (isLeapYear (t.year + 1)) 0 = 0 := by
      cases hy : isLeapYear (t.year + 1) <;> rfl
    rw [h0]
    omega

theorem epochMs_addOneDay (t : JsDate) (h : ValidDate t) :
    epochMs (addOneDay t) = epochMs t + 86400000 := by
  have hd := epochDays_addOneDay t h
  unfold epochMs
  have h1 : (addOneDay t).hour = t.hour := by
    unfold addOneDay; split_ifs <;> rfl
  have h2 : (addOneDay t).minute = t.minute := by
    unfold addOneDay; split_ifs <;> rfl
  have h3 : (addOneDay t).second = t.second := by
    unfold addOneDay; split_ifs <;> rfl
  have h4 : (addOneDay t).ms = t.ms := by
    unfold addOneDay; split_ifs <;> rfl
  rw [hd, h1, h2, h3, h4]
  ring

theorem epochMs_addOneHour (t : JsDate) (h : ValidDate t) :
    epochMs (addOneHour t) = epochMs t + 3600000 := by
  unfold addOneHour
  split_ifs with h1
  · unfold epochMs
    dsimp only
    have hed : epochDays { t with hour := t.hour + 1 } = epochDays t := rfl
    rw [hed]
    omega
  · have hv : ValidDate { t with hour := 0 } := by
      obtain ⟨a, b, c, d, e, f, g⟩ := h
      exact ⟨a, b, c, by show (0 : Nat) < 24; omega, e, f, g⟩
    have h23 : t.hour = 23 := by
      obtain ⟨_, _, _, hh, _⟩ := h
      omega
    rw [epochMs_addOneDay _ hv]
    unfold epochMs
    have hed : epochDays { t with hour := 0 } = epochDays t := rfl
    rw [hed]
    have ha : ({ t with hour := 0 } : JsDate).hour = 0 := rfl
    have hb : ({ t with hour := 0 } : JsDate).minute = t.minute := rfl
    have hc : ({ t with hour := 0 } : JsDate).second = t.second := rfl
    have hd2 : ({ t with hour := 0 } : JsDate).ms = t.ms := rfl
    rw [ha, hb, hc, hd2]
    omega

theorem append_ne_of_ne_suffix (a b r1 r2 : String) (hlen : r1.length = r2.length)
    (hne : r1 ≠ r2) : a ++ r1 ≠ b ++ r2 := by
  intro h
  apply hne
  have hd : (a ++ r1).data = (b ++ r2).data := congrArg String.data h
  rw [String.data_append, String.data_append] at hd
  have hl : r1.data.length = r2.data.length := hlen
  have := List.append_inj_right hd (by
    have htot := congrArg List.length hd
    simp only [List.length_append] at htot
    omega)
  exact String.ext this

/-- C9 theorem: for every valid creation time t, unit 1H yields an expiry
exactly one hour (3600000 ms) after t, 1D exactly one day after t, 1M the
same day and time of day one calendar month later whenever that day exists
in the target month (with calendar rollover otherwise, witnessed by the
Jan 31 2025 conjunct evaluating to Mar 3 2025), 1Y likewise one calendar
year later, and every other unit is rejected with the invalid-expiry
BadRequest error. -/
theorem c9_calculateExpireTime_units (t : JsDate) (h : ValidDate t) :
    (∃ r, calculateExpireTime t "1H" = .ok r ∧ epochMs r = epochMs t + 3600000) ∧
    (∃ r, calculateExpireTime t "1D" = .ok r ∧ epochMs r = epochMs t + 86400000) ∧
    (∃ r, calculateExpireTime t "1M" = .ok r ∧
      (t.day ≤ daysInMonth (isLeapYear (t.year + (t.month + 1) / 12))
          ((t.month + 1) % 12) →
        r.year = t.year + (t.month + 1) / 12 ∧ r.month = (t.month + 1) % 12 ∧
        r.day = t.day ∧ r.hour = t.hour ∧ r.minute = t.minute ∧
        r.second = t.second)) ∧
    (∃ r, calculateExpireTime t "1Y" = .ok r ∧
      (t.day ≤ daysInMonth (isLeapYear (t.year + 1)) t.month →
        r.year = t.year + 1 ∧ r.month = t.month ∧ r.day = t.day ∧
        r.hour = t.hour ∧ r.minute = t.minute ∧ r.second = t.second)) ∧
    calculateExpireTime ⟨2025, 0, 31, 10, 20, 30, 123⟩ "1M" =
      .ok ⟨2025, 2, 3, 10, 20, 30, 0⟩ ∧
    (∀ u, u ≠ "1H" → u ≠ "1D" → u ≠ "1M" → u ≠ "1Y" →
      calculateExpireTime t u = .error (.badRequest "Invalid expiry unit")) := by
  obtain ⟨hm, hd1, hd2, hh, hmi, hs, hms⟩ := h
  refine ⟨⟨addOneHour t, by simp [calculateExpireTime],
      epochMs_addOneHour t ⟨hm, hd1, hd2, hh, hmi, hs, hms⟩⟩,
    ⟨addOneDay t, by simp [calculateExpireTime],
      epochMs_addOneDay t ⟨hm, hd1, hd2, hh, hmi, hs, hms⟩⟩,
    ⟨mkJsDate t.year (t.month + 1) t.day t.hour t.minute t.second,
      by simp [calculateExpireTime], ?_⟩,
    ⟨mkJsDate (t.year + 1) t.month t.day t.hour t.minute t.second,
      by simp [calculateExpireTime], ?_⟩, by rfl, ?_⟩
  · intro hfit
    unfold mkJsDate
    rw [if_pos hfit]
    exact ⟨rfl, rfl, rfl, rfl, rfl, rfl⟩
  · intro hfit
    have hdiv : t.month / 12 = 0 := Nat.div_eq_of_lt hm
    have hmod : t.month % 12 = t.month := Nat.mod_eq_of_lt hm
    unfold mkJsDate
    rw [hdiv, hmod]
    rw [if_pos (by simpa using hfit)]
    exact ⟨rfl, rfl, rfl, rfl, rfl, rfl⟩
  · intro u h1 h2 h3 h4
    simp [calculateExpireTime, h1, h2, h3, h4]

/-- Witness for C9 at the concrete valid instant 2025-06-15 10:20:30.500. -/
theorem c9_calculateExpireTime_units_witness :
    ValidDate nowD ∧
    (∃ r, calculateExpireTime nowD "1H" = .ok r ∧
      epochMs r = epochMs nowD + 3600000) :=
  ⟨by decide, (c9_calculateExpireTime_units nowD (by decide)).1⟩

/-- C6 theorem: for a rollover request on a credential the caller owns,
a still-active (unexpired, unrevoked) credential fails with the
still-active BadRequest; a revoked credential fails with the distinct
revoked BadRequest; an expired unrevoked credential succeeds, the new
credential carries exactly the old credential's permission set and a
rolledOverFrom link to it, and the old credential is stamped with
rolledOverAt while keeping revokedAt empty. -/
theorem c6_rolloverApiKey_states (db : List ApiKeyRec) (now : JsDate)
    (userId : String) (dto : RolloverApiKeyDto) (newId newSecret : String)
    (oldKey : ApiKeyRec)
    (hfind : db.find? (fun k => k.id == dto.expired_key_id) = some oldKey)
    (hown : oldKey.userId = userId) :
    (oldKey.revokedAt = none → epochMs now ≤ epochMs oldKey.expiresAt →
      rolloverApiKey db now userId dto newId newSecret =
        .error (.badRequest
          "API key is still active. Only expired keys can be rolled over")) ∧
    (∀ rv, oldKey.revokedAt = some rv →
      rolloverApiKey db now userId dto newId newSecret =
        .error (.badRequest
          "API key has been revoked. Only expired keys can be rolled over")) ∧
    (oldKey.revokedAt = none → epochMs oldKey.expiresAt < epochMs now →
      ∀ exp, calculateExpireTime now dto.expiry = .ok exp →
        rolloverApiKey db now userId dto newId newSecret =
          .ok (⟨newId, userId, oldKey.name ++ " (rolled over)", newSecret,
              oldKey.permissions, exp, none, some oldKey.id, none⟩ ::
            db.map (fun x =>
              if x.id == oldKey.id then { x with rolledOverAt := some now }
              else x),
            ⟨newSecret, exp, oldKey.name ++ " (rolled over)",
              oldKey.permissions⟩)) := by
  refine ⟨?_, ?_, ?_⟩
  · intro hrv hle
    simp [rolloverApiKey, hfind, hown, hrv, hle]
    rfl
  · intro rv hrv
    simp [rolloverApiKey, hfind, hown, hrv]
    rfl
  · intro hrv hlt exp hexp
    simp [rolloverApiKey, hfind, hown, hrv, hexp, Nat.not_le.mpr hlt]

/-- Witness for C6: rolling the 2020-expired unrevoked key over at the 2025
clock with a 1D expiry succeeds, inheriting the read permission set. -/
theorem c6_rolloverApiKey_states_witness :
    ([expiredKeyD].find? (fun k => k.id == "k1") = some expiredKeyD) ∧
    rolloverApiKey [expiredKeyD] nowD "u1" ⟨"k1", "1D"⟩ "k2" "sk_live_new" =
      .ok ([⟨"k2", "u1", "svc (rolled over)", "sk_live_new", ["read"],
          ⟨2025, 5, 16, 10, 20, 30, 500⟩, none, some "k1", none⟩,
        { expiredKeyD with rolledOverAt := some nowD }],
        ⟨"sk_live_new", ⟨2025, 5, 16, 10, 20, 30, 500⟩, "svc (rolled over)",
          ["read"]⟩) :=
  ⟨by rfl,
    (c6_rolloverApiKey_states [expiredKeyD] nowD "u1" ⟨"k1", "1D"⟩ "k2"
        "sk_live_new" expiredKeyD (by rfl) (by rfl)).2.2 (by rfl) (by decide)
      _ (by rfl)⟩

/-- C7 theorem: creation fails with the max-active-keys BadRequest whenever
the caller already holds five or more active credentials (unrevoked, expiry
strictly in the future) at call time, and succeeds with a new credential
prepended when fewer than five are active and the expiry unit is one of the
valid four; the closed conjunct runs the §8 sequence: with five active keys
the sixth create fails, and after revoking one of them the same create
succeeds. -/
theorem c7_createApiKey_limit (db : List ApiKeyRec) (now : JsDate)
    (userId : String) (dto : CreateApiKeyDto) (newId newSecret : String) :
    (5 ≤ countActiveKeys db now userId →
      createApiKey db now userId dto newId newSecret =
        .error (.badRequest "Maximum of 5 active API keys allowed")) ∧
    (countActiveKeys db now userId < 5 →
      (dto.expiry = "1H" ∨ dto.expiry = "1D" ∨ dto.expiry = "1M" ∨
        dto.expiry = "1Y") →
      ∃ exp, calculateExpireTime now dto.expiry = .ok exp ∧
        createApiKey db now userId dto newId newSecret =
          .ok (⟨newId, userId, dto.name, newSecret, dto.permissions, exp,
              none, none, none⟩ :: db,
            ⟨newSecret, exp, dto.name, dto.permissions⟩)) ∧
    createApiKey fiveKeysDb nowD "u1" createDtoD "k6" "sk_live_k6" =
      .error (.badRequest "Maximum of 5 active API keys allowed") ∧
    isOkE ((revokeApiKey fiveKeysDb nowD "u1" "k3").bind (fun p =>
      createApiKey p.1 nowD "u1" createDtoD "k6" "sk_live_k6")) = true := by
  refine ⟨?_, ?_, by decide, by decide⟩
  · intro hge
    simp [createApiKey, hge]
    rfl
  · intro hlt hexp
    have hok : ∃ exp, calculateExpireTime now dto.expiry = .ok exp := by
      rcases hexp with h | h | h | h <;>
        simp [calculateExpireTime, h]
    obtain ⟨exp, hcalc⟩ := hok
    refine ⟨exp, hcalc, ?_⟩
    simp [createApiKey, Nat.not_le.mpr hlt, hcalc]

/-- Witness for C7 at the five-active-keys store: the limit hypothesis holds
and the sixth create is rejected. -/
theorem c7_createApiKey_limit_witness :
    5 ≤ countActiveKeys fiveKeysDb nowD "u1" ∧
    createApiKey fiveKeysDb nowD "u1" createDtoD "k6" "sk_live_k6" =
      .error (.badRequest "Maximum of 5 active API keys allowed") :=
  ⟨by decide,
    (c7_createApiKey_limit fiveKeysDb nowD "u1" createDtoD "k6"
        "sk_live_k6").1 (by decide)⟩

/-- C8 counterexample: a request presenting an active API key holding only
the read permission, sent to the transfer endpoint, is rejected with an
UnauthorizedException (401) rather than the Forbidden rejection the claim
asserts for a missing permission. -/
theorem c8_accessGate_counterexample :
    accessWalletEndpoint (fun _ => none) fiveKeysDb nowD readOnlyReq
        .transferFunds =
      .error (.unauthorized
        "This api key does not have the necessary permissions to  perform this action") ∧
    isForbiddenE (accessWalletEndpoint (fun _ => none) fiveKeysDb nowD
      readOnlyReq .transferFunds) = false := by
  refine ⟨by decide, by decide⟩

/-- C8 theorem (amended): a request with neither credential fails
Unauthenticated; an unknown, revoked or expired API key fails Forbidden
with the three distinguishing reasons; every wallet endpoint declares its
required permission (deposit for deposits, transfer for transfers, read
for balance, deposit status and history) and the resolved permission set
is checked against it before the handler runs — but a missing permission is
rejected with an UnauthorizedException, not Forbidden. -/
theorem c8_accessGate_amended (verifyJwt : String → Option String)
    (db : List ApiKeyRec) (now : JsDate) (req : HttpRequest) (ep : Endpoint) :
    (req.authorization = none → req.xApiKey = none →
      accessWalletEndpoint verifyJwt db now req ep =
        .error (.unauthorized
          "Missing authentication: Bearer JWT or x-api-key header required")) ∧
    (∀ key, req.authorization = none → req.xApiKey = some key →
      (db.find? (fun k => k.key == key) = none →
        accessWalletEndpoint verifyJwt db now req ep =
          .error (.forbidden "Invalid API key")) ∧
      (∀ k, db.find? (fun x => x.key == key) = some k →
        (∀ rv, k.revokedAt = some rv →
          accessWalletEndpoint verifyJwt db now req ep =
            .error (.forbidden "API key has been revoked")) ∧
        (k.revokedAt = none → epochMs k.expiresAt < epochMs now →
          accessWalletEndpoint verifyJwt db now req ep =
            .error (.forbidden "API key has expired")) ∧
        (k.revokedAt = none → epochMs now ≤ epochMs k.expiresAt →
          validateApiKeyPermission k.permissions (requiredPermission ep) = false →
          accessWalletEndpoint verifyJwt db now req ep =
            .error (.unauthorized
              "This api key does not have the necessary permissions to  perform this action")) ∧
        (k.revokedAt = none → epochMs now ≤ epochMs k.expiresAt →
          validateApiKeyPermission k.permissions (requiredPermission ep) = true →
          accessWalletEndpoint verifyJwt db now req ep =
            .ok ⟨some k.userId, some k.permissions⟩))) ∧
    (requiredPermission .deposit = "deposit" ∧
      requiredPermission .transferFunds = "transfer" ∧
      requiredPermission .balance = "read" ∧
      requiredPermission .depositStatus = "read" ∧
      requiredPermission .history = "read") := by
  refine ⟨?_, ?_, by decide⟩
  · intro hauth hkey
    simp [accessWalletEndpoint, jwtAuthGuard, hauth, hkey]
    rfl
  · intro key hauth hkey
    refine ⟨?_, ?_⟩
    · intro hfind
      simp [accessWalletEndpoint, jwtAuthGuard, apiKeyGuard, hauth, hkey, hfind]
      rfl
    · intro k hfind
      refine ⟨?_, ?_, ?_, ?_⟩
      · intro rv hrv
        simp [accessWalletEndpoint, jwtAuthGuard, apiKeyGuard, hauth, hkey,
          hfind, hrv]
        rfl
      · intro hrv hexp
        simp [accessWalletEndpoint, jwtAuthGuard, apiKeyGuard, hauth, hkey,
          hfind, hrv, hexp]
        rfl
      · intro hrv hexp hperm
        simp [accessWalletEndpoint, jwtAuthGuard, apiKeyGuard, hauth, hkey,
          hfind, hrv, Nat.not_lt.mpr hexp, hperm, bind, Except.bind,
          Option.getD]
        rfl
      · intro hrv hexp hperm
        simp [accessWalletEndpoint, jwtAuthGuard, apiKeyGuard, hauth, hkey,
          hfind, hrv, Nat.not_lt.mpr hexp, hperm, bind, Except.bind,
          Option.getD]
        rfl

/-- Witness for C8 at a concrete credential-free request: the gate fails
Unauthenticated. -/
theorem c8_accessGate_amended_witness :
    accessWalletEndpoint (fun _ => none) fiveKeysDb nowD ⟨none, none⟩
        .balance =
      .error (.unauthorized
        "Missing authentication: Bearer JWT or x-api-key header required") :=
  (c8_accessGate_amended (fun _ => none) fiveKeysDb nowD ⟨none, none⟩
      .balance).1 rfl rfl

/-- C1 theorem: under a valid signature, a charge.success notification whose
gateway reference matches no stored transaction is acknowledged with status
true and leaves the store untouched, and one whose matched transaction is
already success is likewise acknowledged idempotently with no balance or
transaction change — so redelivering an already-settled notification
credits nothing. -/
theorem c1_webhook_idempotent (hmac : String → String → String)
    (secret : String) (db : Db) (event : JVal) (sig ref : String)
    (hsig : verifyWebhookSignature hmac secret event sig = true)
    (hev : jstr (jget event "event") = some "charge.success")
    (href : jstr (jget2 event "data" "reference") = some ref) :
    (db.transactions.find? (fun t => t.paystackRef == some ref) = none →
      handlePaystackWebhook hmac secret db event sig = .ok (db, true)) ∧
    (∀ t, db.transactions.find? (fun x => x.paystackRef == some ref) = some t →
      t.status = "success" →
      handlePaystackWebhook hmac secret db event sig = .ok (db, true)) := by
  constructor
  · intro hfind
    simp [handlePaystackWebhook, hsig, hev, href, hfind]
  · intro t hfind hstatus
    simp [handlePaystackWebhook, hsig, hev, href, hfind, hstatus]

/-- Witness for C1 at the settled demo ledger: redelivering the payref1
charge.success notification acknowledges with status true and returns the
store unchanged. -/
theorem c1_webhook_idempotent_witness :
    verifyWebhookSignature constHmac "secret" chargeEventD "sig" = true ∧
    handlePaystackWebhook constHmac "secret" demoDbSettled chargeEventD "sig" =
      .ok (demoDbSettled, true) :=
  ⟨by decide,
    (c1_webhook_idempotent constHmac "secret" demoDbSettled chargeEventD "sig"
        "payref1" (by decide) (by rfl) (by rfl)).2 successTxD (by rfl) (by rfl)⟩

/-- C10 theorem: under a valid signature, any notification whose event is
not charge.success is acknowledged with status true and changes nothing;
and every acknowledged run either leaves the store identical or settles
exactly one stored non-success transaction to success (transfers never
change, and every transaction row after the call is an untouched input row
or carries status success — in particular no row is ever moved to failed). -/
theorem c10_webhook_frame (hmac : String → String → String) (secret : String)
    (db : Db) (event : JVal) (sig : String)
    (hsig : verifyWebhookSignature hmac secret event sig = true) :
    (jstr (jget event "event") ≠ some "charge.success" →
      handlePaystackWebhook hmac secret db event sig = .ok (db, true)) ∧
    (∀ db2 b, handlePaystackWebhook hmac secret db event sig = .ok (db2, b) →
      b = true ∧ db2.transfers = db.transfers ∧
      (db2 = db ∨
        ∃ t, t ∈ db.transactions ∧ t.status ≠ "success" ∧
          db2.transactions = db.transactions.map (fun x =>
            if x.id == t.id then { x with status := "success" } else x)) ∧
      (∀ x, x ∈ db2.transactions → x ∈ db.transactions ∨ x.status = "success")) := by
  constructor
  · intro hev
    have hbeq : (jstr (jget event "event") == some "charge.success") = false := by
      simpa using hev
    simp [handlePaystackWebhook, hsig, hbeq]
  · intro db2 b hrun
    unfold handlePaystackWebhook at hrun
    rw [hsig] at hrun
    simp only [not_true, if_false] at hrun
    by_cases hev : (jstr (jget event "event") == some "charge.success") = true
    · rw [if_pos hev] at hrun
      cases href : jstr (jget2 event "data" "reference") with
      | none => rw [href] at hrun; exact absurd hrun (by simp)
      | some ref =>
          rw [href] at hrun
          dsimp only at hrun
          cases hfind : db.transactions.find? (fun t => t.paystackRef == some ref) with
          | none =>
              rw [hfind] at hrun
              obtain ⟨h1, h2⟩ := Prod.mk.injEq .. ▸ (Except.ok.injEq .. ▸ hrun)
              refine ⟨h2.symm ▸ rfl, ?_, ?_, ?_⟩ <;>
                simp [← h1]
              · intro x hx
                exact Or.inl hx
          | some t =>
              rw [hfind] at hrun
              dsimp only at hrun
              by_cases hst : (t.status == "success") = true
              · rw [if_pos hst] at hrun
                obtain ⟨h1, h2⟩ := Prod.mk.injEq .. ▸ (Except.ok.injEq .. ▸ hrun)
                refine ⟨h2.symm ▸ rfl, ?_, ?_, ?_⟩ <;>
                  simp [← h1]
                · intro x hx
                  exact Or.inl hx
              · rw [if_neg hst] at hrun
                cases hw : db.wallets.find? (fun w => w.id == t.walletId) with
                | none => rw [hw] at hrun; exact absurd hrun (by simp)
                | some wallet =>
                    rw [hw] at hrun
                    dsimp only at hrun
                    obtain ⟨h1, h2⟩ := Prod.mk.injEq .. ▸ (Except.ok.injEq .. ▸ hrun)
                    subst h2
                    refine ⟨rfl, by rw [← h1], ?_, ?_⟩
                    · right
                      refine ⟨t, List.mem_of_find?_eq_some hfind, ?_, by rw [← h1]⟩
                      intro hcontra
                      exact hst (by simp [hcontra])
                    · intro x hx
                      rw [← h1] at hx
                      simp only at hx
                      rcases List.mem_map.mp hx with ⟨y, hy, hxy⟩
                      by_cases hid : (y.id == t.id) = true
                      · right
                        rw [← hxy]
                        simp [hid]
                      · left
                        rw [← hxy]
                        simp [hid]
                        exact hy
    · rw [if_neg hev] at hrun
      obtain ⟨h1, h2⟩ := Prod.mk.injEq .. ▸ (Except.ok.injEq .. ▸ hrun)
      refine ⟨h2.symm ▸ rfl, ?_, ?_, ?_⟩ <;>
        simp [← h1]
      · intro x hx
        exact Or.inl hx

/-- Witness for C10: the charge.failed demo notification with a matching
signature is acknowledged and the settled demo ledger is returned
unchanged. -/
theorem c10_webhook_frame_witness :
    verifyWebhookSignature constHmac "secret" failEventD "sig" = true ∧
    handlePaystackWebhook constHmac "secret" demoDbSettled failEventD "sig" =
      .ok (demoDbSettled, true) :=
  ⟨by decide,
    (c10_webhook_frame constHmac "secret" demoDbSettled failEventD "sig"
        (by decide)).1 (by decide)⟩

/-- C4 theorem (failing input, code bug): the gateway serializes and signs
the exact bytes rawBodyD (note the space after the colon); JSON.parse
yields parsedBodyD, whose JSON.stringify differs from the received bytes;
because verifyWebhookSignature digests the reserialized text instead of
the raw body, the comparison is made against a different message than the
one signed, and the handler rejects this genuinely signed notification
with the invalid-signature BadRequest (shown with the injective digest
rawHmac, for which signing raw bytes and signing the reserialization are
distinguishable, as for any collision-free HMAC). -/
theorem c4_signature_reserialization_bug :
    parseJson rawBodyD = some parsedBodyD ∧
    stringify parsedBodyD ≠ rawBodyD ∧
    rawHmac "secret" rawBodyD ≠ rawHmac "secret" (stringify parsedBodyD) ∧
    verifyWebhookSignature rawHmac "secret" parsedBodyD
      (rawHmac "secret" rawBodyD) = false ∧
    handlePaystackWebhook rawHmac "secret" demoDb parsedBodyD
        (rawHmac "secret" rawBodyD) =
      .error (.badRequest "Invalid webhook signature") :=
  ⟨by rfl, by decide, by decide, by rfl, by decide⟩

/-- C5 theorem: initiating a deposit of ledger amount N sends the gateway
N times 100 (minor units) with the wallet owner's email, persists a pending
Transaction carrying the unscaled amount N and both the internal reference
and the gateway's returned reference, and returns the internal reference
together with the gateway's payment link unmodified; a subsequent
charge.success notification for that gateway reference, under a valid
signature, settles exactly that Transaction to success and increments the
wallet balance by exactly N. -/
theorem c5_deposit_flow (db : Db) (userId : String) (amount : Int)
    (ts rand : String) (resp : PaystackInitResponse) (newTxId : String)
    (w : WalletRec)
    (hfind : db.wallets.find? (fun x => x.userId == userId) = some w)
    (hfindId : db.wallets.find? (fun x => x.id == w.id) = some w) :
    ∃ db2 req res,
      initializeDeposit db userId amount ts rand resp newTxId =
        .ok (db2, req, res) ∧
      req.amount = amount * 100 ∧
      req.email = w.userEmail ∧
      res.reference = depositReference userId ts rand ∧
      res.authorization_url = resp.authorization_url ∧
      db2.wallets = db.wallets ∧
      db2.transfers = db.transfers ∧
      db2.transactions =
        (⟨newTxId, w.id, "deposit", amount, depositReference userId ts rand,
          some resp.reference, "pending", none⟩ : TransactionRec) ::
          db.transactions ∧
      (∀ hmac secret event sig,
        verifyWebhookSignature hmac secret event sig = true →
        jstr (jget event "event") = some "charge.success" →
        jstr (jget2 event "data" "reference") = some resp.reference →
        (∀ t, t ∈ db.transactions → t.id ≠ newTxId) →
        handlePaystackWebhook hmac secret db2 event sig =
          .ok (⟨db.wallets.map (fun x =>
              if x.id == w.id then { x with balance := w.balance + amount }
              else x),
            (⟨newTxId, w.id, "deposit", amount, depositReference userId ts rand,
              some resp.reference, "success", none⟩ : TransactionRec) ::
              db.transactions,
            db.transfers⟩, true)) := by
  refine ⟨{ db with transactions :=
      (⟨newTxId, w.id, "deposit", amount, depositReference userId ts rand,
        some resp.reference, "pending", none⟩ : TransactionRec) ::
        db.transactions },
    ⟨w.userEmail, amount * 100, depositReference userId ts rand⟩,
    ⟨depositReference userId ts rand, resp.authorization_url⟩,
    by simp [initializeDeposit, hfind], rfl, rfl, rfl, rfl,
    rfl, rfl, rfl, ?_⟩
  intro hmac secret event sig hsig hev href hfresh
  have hbeq : (jstr (jget event "event") == some "charge.success") = true := by
    simp [hev]
  unfold handlePaystackWebhook
  rw [hsig]
  simp only [not_true, if_false, hbeq, if_true, href]
  rw [List.find?_cons_of_pos _ (by simp)]
  dsimp only
  rw [if_neg (by simp)]
  rw [hfindId]
  dsimp only
  have htail : db.transactions.map (fun t =>
      if t.id == newTxId then
        { t with status := "success" }
      else t) = db.transactions := by
    have := List.map_congr_left (l := db.transactions)
      (f := fun t : TransactionRec =>
        if t.id == newTxId then { t with status := "success" } else t)
      (g := id) (fun a ha => by
        have : (a.id == newTxId) = false := by
          simp [hfresh a ha]
        simp [this])
    simpa using this
  rw [List.map_cons]
  simp
  simpa using htail

/-- Witness for C5: depositing 5000 on wallet A sends 500000 to the gateway,
persists the pending transaction under both references, and the matching
charge.success notification settles it and credits wallet A by 5000. -/
theorem c5_deposit_flow_witness :
    (demoDb.wallets.find? (fun x => x.userId == "uA") = some walletA) ∧
    (demoDb.wallets.find? (fun x => x.id == walletA.id) = some walletA) ∧
    (∃ db2 req res,
      initializeDeposit demoDb "uA" 5000 "111" "abcd"
          ⟨"payref1", "https://pay"⟩ "t9" =
        .ok (db2, req, res) ∧
      req.amount = 5000 * 100 ∧
      req.email = walletA.userEmail ∧
      res.reference = depositReference "uA" "111" "abcd" ∧
      res.authorization_url = "https://pay" ∧
      db2.wallets = demoDb.wallets ∧
      db2.transfers = demoDb.transfers ∧
      db2.transactions =
        (⟨"t9", walletA.id, "deposit", 5000, depositReference "uA" "111" "abcd",
          some "payref1", "pending", none⟩ : TransactionRec) ::
          demoDb.transactions ∧
      (∀ hmac secret event sig,
        verifyWebhookSignature hmac secret event sig = true →
        jstr (jget event "event") = some "charge.success" →
        jstr (jget2 event "data" "reference") = some "payref1" →
        (∀ t, t ∈ demoDb.transactions → t.id ≠ "t9") →
        handlePaystackWebhook hmac secret db2 event sig =
          .ok (⟨demoDb.wallets.map (fun x =>
              if x.id == walletA.id then
                { x with balance := walletA.balance + 5000 }
              else x),
            (⟨"t9", walletA.id, "deposit", 5000,
              depositReference "uA" "111" "abcd",
              some "payref1", "success", none⟩ : TransactionRec) ::
              demoDb.transactions,
            demoDb.transfers⟩, true))) :=
  ⟨rfl, rfl,
    c5_deposit_flow demoDb "uA" 5000 "111" "abcd" ⟨"payref1", "https://pay"⟩
      "t9" walletA rfl rfl⟩

/-- C3 theorem: the transfer preconditions are checked in source order, each
failing with its own error and returning the untouched store: missing
sender wallet and unresolvable recipient wallet number fail NotFound with
distinct messages, a self transfer fails the invalid-operation BadRequest,
an insufficient balance fails the insufficient-balance BadRequest; the
final conjunct records that the four errors are pairwise distinct. -/
theorem c3_transfer_preconditions (db : Db) (senderId : String)
    (dto : TransferDto) (ts r1 r2 r3 sTxId rTxId : String) :
    (db.wallets.find? (fun w => w.userId == senderId) = none →
      runTransfer db senderId dto ts r1 r2 r3 sTxId rTxId =
        (db, some (.notFound "Sender wallet not found"))) ∧
    (∀ s, db.wallets.find? (fun w => w.userId == senderId) = some s →
      (db.wallets.find? (fun w => w.walletNumber == dto.wallet_number) = none →
        runTransfer db senderId dto ts r1 r2 r3 sTxId rTxId =
          (db, some (.notFound "Recipient wallet not found"))) ∧
      (∀ r, db.wallets.find? (fun w => w.walletNumber == dto.wallet_number) =
          some r →
        (s.userId = r.userId →
          runTransfer db senderId dto ts r1 r2 r3 sTxId rTxId =
            (db, some (.badRequest "Cannot transfer to your own wallet"))) ∧
        (s.userId ≠ r.userId → s.balance < dto.amount →
          runTransfer db senderId dto ts r1 r2 r3 sTxId rTxId =
            (db, some (.badRequest "Insufficient balance"))))) ∧
    ([WErr.notFound "Sender wallet not found",
      WErr.notFound "Recipient wallet not found",
      WErr.badRequest "Cannot transfer to your own wallet",
      WErr.badRequest "Insufficient balance"] : List WErr).Nodup := by
  refine ⟨?_, ?_, by decide⟩
  · intro hs
    simp [runTransfer, transferFunds, hs]
  · intro s hs
    refine ⟨?_, ?_⟩
    · intro hr
      simp [runTransfer, transferFunds, hs, hr]
    · intro r hr
      refine ⟨?_, ?_⟩
      · intro hsame
        simp [runTransfer, transferFunds, hs, hr, hsame]
      · intro hneq hlt
        have hbeq : (s.userId == r.userId) = false := by
          simp [hneq]
        simp [runTransfer, transferFunds, hs, hr, hbeq, hlt]

/-- Witness for C3 at a sender without a wallet: the transfer fails NotFound
and the demo store is returned unchanged. -/
theorem c3_transfer_preconditions_witness :
    demoDb.wallets.find? (fun w => w.userId == "nobody") = none ∧
    runTransfer demoDb "nobody" ⟨"2222", 3000, none⟩ "111" "aa" "bb" "cc"
        "t1" "t2" =
      (demoDb, some (.notFound "Sender wallet not found")) :=
  ⟨by rfl,
    (c3_transfer_preconditions demoDb "nobody" ⟨"2222", 3000, none⟩ "111"
        "aa" "bb" "cc" "t1" "t2").1 (by rfl)⟩

/-- C2 theorem: a transfer meeting all preconditions succeeds and, in one
unit of work, debits the sender wallet by exactly the amount, credits the
recipient wallet by exactly the amount (all other wallets untouched),
creates exactly one Transfer row and exactly two success transfer
Transactions — one per wallet — whose three references are pairwise
distinct whenever the three equal-length random suffixes are; the closed
conjunct runs the §8 instance: transferring 3000 from a 10000 wallet to a
0 wallet leaves balances 7000 and 3000 with two Transaction rows and one
Transfer row, all success. -/
theorem c2_transfer_success (db : Db) (senderId : String) (dto : TransferDto)
    (ts r1 r2 r3 sTxId rTxId : String) (s r : WalletRec)
    (hs : db.wallets.find? (fun w => w.userId == senderId) = some s)
    (hr : db.wallets.find? (fun w => w.walletNumber == dto.wallet_number) =
      some r)
    (hneq : s.userId ≠ r.userId)
    (hbal : ¬s.balance < dto.amount)
    (hid : s.id ≠ r.id)
    (hlen12 : r1.length = r2.length) (hlen13 : r1.length = r3.length)
    (h12 : r1 ≠ r2) (h13 : r1 ≠ r3) (h23 : r2 ≠ r3) :
    ∃ db2,
      transferFunds db senderId dto ts r1 r2 r3 sTxId rTxId =
        .ok (db2, "Transfer completed") ∧
      db2.wallets = db.wallets.map (fun w =>
        if w.id == s.id then { w with balance := s.balance - dto.amount }
        else if w.id == r.id then { w with balance := r.balance + dto.amount }
        else w) ∧
      db2.transfers =
        (⟨senderId, r.userId, dto.amount,
          transferReference s.userId r.userId ts r1, "success",
          dto.description⟩ : TransferRec) :: db.transfers ∧
      db2.transactions =
        (⟨sTxId, s.id, "transfer", dto.amount, senderReference r.userId ts r3,
          none, "success", some ("Transfer to " ++ r.userName)⟩ :
            TransactionRec) ::
        (⟨rTxId, r.id, "transfer", dto.amount,
          recipientReference s.userId ts r2, none, "success",
          some ("Received from " ++ s.userName)⟩ : TransactionRec) ::
          db.transactions ∧
      transferReference s.userId r.userId ts r1 ≠
        recipientReference s.userId ts r2 ∧
      transferReference s.userId r.userId ts r1 ≠
        senderReference r.userId ts r3 ∧
      recipientReference s.userId ts r2 ≠ senderReference r.userId ts r3 ∧
      (transferFunds demoDb "uA" ⟨"2222", 3000, none⟩ "111" "aa" "bb" "cc"
          "t1" "t2").map (fun p =>
        (p.1.wallets.map (fun w => w.balance), p.1.transactions.length,
          p.1.transfers.length, p.1.transactions.map (fun t => t.status),
          p.1.transfers.map (fun t => t.status))) =
      .ok ([7000, 3000], 2, 1, ["success", "success"], ["success"]) := by
  have hbeq : (s.userId == r.userId) = false := by simp [hneq]
  refine ⟨⟨(db.wallets.map (fun w =>
      if w.id == s.id then { w with balance := s.balance - dto.amount }
      else w)).map (fun w =>
      if w.id == r.id then { w with balance := r.balance + dto.amount }
      else w),
    (⟨sTxId, s.id, "transfer", dto.amount, senderReference r.userId ts r3,
      none, "success", some ("Transfer to " ++ r.userName)⟩ :
        TransactionRec) ::
    (⟨rTxId, r.id, "transfer", dto.amount, recipientReference s.userId ts r2,
      none, "success", some ("Received from " ++ s.userName)⟩ :
        TransactionRec) :: db.transactions,
    (⟨senderId, r.userId, dto.amount,
      transferReference s.userId r.userId ts r1, "success",
      dto.description⟩ : TransferRec) :: db.transfers⟩,
    ?_, ?_, rfl, rfl, ?_, ?_, ?_, by decide⟩
  · simp [transferFunds, hs, hr, hbeq, hbal, transferReference,
      recipientReference, senderReference]
  · rw [List.map_map]
    refine List.map_congr_left ?_
    intro w hw
    by_cases hws : (w.id == s.id) = true
    · have hwid : w.id = s.id := by simpa using hws
      have hwr : (w.id == r.id) = false := by
        simp [hwid, hid]
      simp only [Function.comp_apply, hws, if_true]
      have : (({ w with balance := s.balance - dto.amount } :
          WalletRec).id == r.id) = false := by
        simpa using hwr
      simp [this, hws]
    · simp only [Function.comp_apply, hws, if_false]
      simp [hws]
  · unfold transferReference recipientReference
    exact append_ne_of_ne_suffix _ _ r1 r2 hlen12 h12
  · unfold transferReference senderReference
    exact append_ne_of_ne_suffix _ _ r1 r3 hlen13 h13
  · unfold recipientReference senderReference
    exact append_ne_of_ne_suffix _ _ r2 r3 (hlen12 ▸ hlen13) h23

/-- Witness for C2 at the §8 instance: all preconditions hold and the
transfer completes. -/
theorem c2_transfer_success_witness :
    demoDb.wallets.find? (fun w => w.userId == "uA") = some walletA ∧
    ∃ db2, transferFunds demoDb "uA" ⟨"2222", 3000, none⟩ "111" "aa" "bb"
        "cc" "t1" "t2" = .ok (db2, "Transfer completed") :=
  ⟨by rfl,
    (c2_transfer_success demoDb "uA" ⟨"2222", 3000, none⟩ "111" "aa" "bb"
        "cc" "t1" "t2" walletA walletB (by rfl) (by rfl) (by decide)
        (by decide) (by decide) (by rfl) (by rfl) (by decide) (by decide)
        (by decide)).elim (fun db2 h => ⟨db2, h.1⟩)⟩
